import Mathlib

/-!
Shallow embedding of `src/rest/model/orders.rs`: the order-management
request descriptors of an exchange REST client, their serde-derived body
serialization, path rendering, and the fixed method/auth/response
contract of the `Request` trait implementations.

Serialization is modelled as an association list of JSON keys and
values.  Values whose exact wire rendering is produced by external
library code (decimals, enum variants, RFC3339 dates) are embedded
opaquely as dedicated `JsonVal` constructors: the claims under study
concern key presence/absence, key naming and value provenance, never
the textual rendering of those leaf values.
-/

namespace Ftx

/-- Modelled from the spec: `Id` lives in `super::common`, which is not
in src/.  The spec describes it as an opaque integer-like value whose
path interpolation renders it as a decimal integer, so it is embedded
as `Nat`. -/
abbrev Id : Type := Nat

/-- Modelled from the spec: decimal rendering of an `Id` (Rust
`format!("{}", id)`), i.e. the standard base-10 numeral. -/
def Id.render (i : Id) : String := Nat.repr i

/-- Modelled from the spec: `Side` lives in `super::common`, a closed
enumeration {Buy, Sell}. -/
inductive Side where
  | buy
  | sell
deriving DecidableEq, Repr

/-- Modelled from the spec: `OrderType` lives in `super::common`, a
closed enumeration {Market, Limit, Stop, TrailingStop, TakeProfit}. -/
inductive OrderType where
  | market
  | limit
  | stop
  | trailingStop
  | takeProfit
deriving DecidableEq, Repr

/-- Modelled from the spec: `OrderStatus` lives in `super::common`, a
closed enumeration {New, Open, Closed}. -/
inductive OrderStatus where
  | new
  | open
  | closed
deriving DecidableEq, Repr

/-- Source `rust_decimal::Decimal`: an exact base-10 number, embedded as an
integer mantissa with a base-10 scale.  The claims perform no decimal
arithmetic, only equality and transport. -/
structure Decimal where
  mantissa : Int
  scale : Nat
deriving DecidableEq, Repr

/-- Source `chrono::DateTime<Utc>`, embedded by its Unix timestamp (the only
observation the serialized bodies make of it). -/
structure DateTime where
  timestamp : Int
deriving DecidableEq, Repr

/-- A JSON value as far as the serialized bodies observe it.  Leaf
values rendered by external library code keep their typed payload. -/
inductive JsonVal where
  | null
  | bool (b : Bool)
  | str (s : String)
  | num (n : Int)
  | dec (d : Decimal)
  | side (s : Side)
  | ordType (t : OrderType)
  | status (st : OrderStatus)
  | datetime (d : DateTime)
deriving DecidableEq, Repr

/-- A serialized body: JSON object as an association list, in serde's
field declaration order. -/
abbrev Body : Type := List (String × JsonVal)

/-- Keys of a serialized body. -/
def Body.keys (b : Body) : List String := b.map Prod.fst

/-- First value bound to a key in a body (JSON object lookup). -/
def Body.lookup (b : Body) (k : String) : Option JsonVal :=
  List.lookup k b

/-- serde `#[serde(skip_serializing_if = "Option::is_none")]`: the
key/value pair is emitted only when the option is populated. -/
def optEntry (k : String) (f : α → JsonVal) : Option α → Body
  | none => []
  | some v => [(k, f v)]

/-- serde serialization of an `Option` field without a skip attribute:
`None` becomes an explicit JSON null. -/
def nullable (f : α → JsonVal) : Option α → JsonVal
  | none => JsonVal.null
  | some v => f v

/-- HTTP methods used by the `Request` impls (`http::Method`). -/
inductive Method where
  | GET
  | POST
  | DELETE
deriving DecidableEq, Repr

/-- The declared `type Response` of each `Request` impl, up to the
shapes this module uses. -/
inductive ResponseType where
  | orderInfo
  | orderInfoList
  | confirmationString
deriving DecidableEq, Repr

/-- Source `GetOpenOrders` (no `rename_all` attribute on the struct). -/
structure GetOpenOrders where
  market : Option String
deriving DecidableEq, Repr

/-- Source `GetOpenOrders::all_market`. -/
def GetOpenOrders.all_market : GetOpenOrders := { market := none }

/-- Source `GetOpenOrders::with_market`. -/
def GetOpenOrders.with_market (market : String) : GetOpenOrders :=
  { market := some market }

/-- serde `Serialize` for `GetOpenOrders`: `market` skipped when
`None`. -/
def GetOpenOrders.serialize (o : GetOpenOrders) : Body :=
  optEntry "market" JsonVal.str o.market

/-- Source `PlaceOrder` (`rename_all = "camelCase"`); `price` has no skip
attribute (serialized even when `None`), `client_id` is skipped when
`None`. -/
structure PlaceOrder where
  market : String
  side : Side
  price : Option Decimal
  type : OrderType
  size : Decimal
  reduce_only : Bool
  ioc : Bool
  post_only : Bool
  client_id : Option String
  reject_on_price_band : Bool
deriving DecidableEq, Repr

/-- serde `Serialize` for `PlaceOrder`, fields in declaration order
with camelCase keys. -/
def PlaceOrder.serialize (o : PlaceOrder) : Body :=
  [("market", JsonVal.str o.market),
   ("side", JsonVal.side o.side),
   ("price", nullable JsonVal.dec o.price),
   ("type", JsonVal.ordType o.type),
   ("size", JsonVal.dec o.size),
   ("reduceOnly", JsonVal.bool o.reduce_only),
   ("ioc", JsonVal.bool o.ioc),
   ("postOnly", JsonVal.bool o.post_only)]
  ++ optEntry "clientId" JsonVal.str o.client_id
  ++ [("rejectOnPriceBand", JsonVal.bool o.reject_on_price_band)]

/-- Source `ModifyOrder` (`rename_all = "camelCase"`); `id` carries
`skip_serializing`, the three optionals are skipped when `None`. -/
structure ModifyOrder where
  id : Id
  price : Option Decimal
  size : Option Decimal
  client_id : Option String
deriving DecidableEq, Repr

/-- serde `Serialize` for `ModifyOrder`: `id` never emitted. -/
def ModifyOrder.serialize (o : ModifyOrder) : Body :=
  optEntry "price" JsonVal.dec o.price
  ++ optEntry "size" JsonVal.dec o.size
  ++ optEntry "clientId" JsonVal.str o.client_id

/-- Source `ModifyOrder::path`: `format!("/orders/{}/modify", self.id)`. -/
def ModifyOrder.path (o : ModifyOrder) : String :=
  "/orders/" ++ Id.render o.id ++ "/modify"

/-- Source `GetOrder`; `id` carries `skip_serializing`. -/
structure GetOrder where
  id : Id
deriving DecidableEq, Repr

/-- Source `GetOrder::new`. -/
def GetOrder.new (order_id : Id) : GetOrder := { id := order_id }

/-- serde `Serialize` for `GetOrder`: the only field is skipped. -/
def GetOrder.serialize (_ : GetOrder) : Body := []

/-- Source `GetOrder::path`: `format!("/orders/{}", self.id)`. -/
def GetOrder.path (o : GetOrder) : String :=
  "/orders/" ++ Id.render o.id

/-- Source `CancelOrder`; `id` carries `skip_serializing`. -/
structure CancelOrder where
  id : Id
deriving DecidableEq, Repr

/-- Source `CancelOrder::new`. -/
def CancelOrder.new (order_id : Id) : CancelOrder := { id := order_id }

/-- serde `Serialize` for `CancelOrder`: the only field is skipped. -/
def CancelOrder.serialize (_ : CancelOrder) : Body := []

/-- Source `CancelOrder::path`: `format!("/orders/{}", self.id)`. -/
def CancelOrder.path (o : CancelOrder) : String :=
  "/orders/" ++ Id.render o.id

/-- Source `CancelTriggerOrder`; `id` carries `skip_serializing`. -/
structure CancelTriggerOrder where
  id : Id
deriving DecidableEq, Repr

/-- Source `CancelTriggerOrder::new`. -/
def CancelTriggerOrder.new (order_id : Id) : CancelTriggerOrder :=
  { id := order_id }

/-- serde `Serialize` for `CancelTriggerOrder`: the only field is
skipped. -/
def CancelTriggerOrder.serialize (_ : CancelTriggerOrder) : Body := []

/-- Source `CancelTriggerOrder::path`:
`format!("/conditional_orders/{}", self.id)`. -/
def CancelTriggerOrder.path (o : CancelTriggerOrder) : String :=
  "/conditional_orders/" ++ Id.render o.id

/-- Source `CancelAllOrder` (`rename_all = "camelCase"`); every field skipped
when `None`. -/
structure CancelAllOrder where
  market : Option String
  side : Option Side
  conditional_orders_only : Option Bool
  limit_orders_only : Option Bool
deriving DecidableEq, Repr

/-- Source `CancelAllOrder::with_market`: `market` set, the rest from
`Default` (all `None`). -/
def CancelAllOrder.with_market (market : String) : CancelAllOrder :=
  { market := some market
    side := none
    conditional_orders_only := none
    limit_orders_only := none }

/-- serde `Serialize` for `CancelAllOrder`. -/
def CancelAllOrder.serialize (o : CancelAllOrder) : Body :=
  optEntry "market" JsonVal.str o.market
  ++ optEntry "side" JsonVal.side o.side
  ++ optEntry "conditionalOrdersOnly" JsonVal.bool o.conditional_orders_only
  ++ optEntry "limitOrdersOnly" JsonVal.bool o.limit_orders_only

/-- Source `CancelOrderByClientId` (`rename_all = "camelCase"`); `client_id`
carries `skip_serializing`. -/
structure CancelOrderByClientId where
  client_id : String
deriving DecidableEq, Repr

/-- Source `CancelOrderByClientId::new`. -/
def CancelOrderByClientId.new (client_id : String) : CancelOrderByClientId :=
  { client_id := client_id }

/-- serde `Serialize` for `CancelOrderByClientId`: the only field is
skipped. -/
def CancelOrderByClientId.serialize (_ : CancelOrderByClientId) : Body := []

/-- Source `CancelOrderByClientId::path`:
`format!("/orders/by_client_id/{}", self.client_id)`. -/
def CancelOrderByClientId.path (o : CancelOrderByClientId) : String :=
  "/orders/by_client_id/" ++ o.client_id

/-- Source `GetOrderByClientId` (`rename_all = "camelCase"`); `client_id`
carries `skip_serializing`. -/
structure GetOrderByClientId where
  client_id : String
deriving DecidableEq, Repr

/-- Source `GetOrderByClientId::new`. -/
def GetOrderByClientId.new (client_id : String) : GetOrderByClientId :=
  { client_id := client_id }

/-- serde `Serialize` for `GetOrderByClientId`: the only field is
skipped. -/
def GetOrderByClientId.serialize (_ : GetOrderByClientId) : Body := []

/-- Source `GetOrderByClientId::path`:
`format!("/orders/by_client_id/{}", self.client_id)`. -/
def GetOrderByClientId.path (o : GetOrderByClientId) : String :=
  "/orders/by_client_id/" ++ o.client_id

/-- Source `GetOrderHistory`.  NOTE: the struct carries NO
`#[serde(rename_all = "camelCase")]` attribute in the source, so serde
emits the field identifiers verbatim (`start_time`, `end_time`). -/
structure GetOrderHistory where
  market : Option String
  side : Option Side
  limit : Option Nat
  start_time : Option DateTime
  end_time : Option DateTime
deriving DecidableEq, Repr

/-- Modelled from the spec: `super::serialize_as_timestamp` lives in
the parent module, which is not in src/; per the spec it serializes a
time as an integer Unix timestamp. -/
def serialize_as_timestamp (t : DateTime) : JsonVal :=
  JsonVal.num t.timestamp

/-- serde `Serialize` for `GetOrderHistory`: no rename attribute, so
keys are the verbatim field names; time fields go through
`serialize_as_timestamp`; all fields skipped when `None`. -/
def GetOrderHistory.serialize (o : GetOrderHistory) : Body :=
  optEntry "market" JsonVal.str o.market
  ++ optEntry "side" JsonVal.side o.side
  ++ optEntry "limit" (fun n => JsonVal.num (Int.ofNat n)) o.limit
  ++ optEntry "start_time" serialize_as_timestamp o.start_time
  ++ optEntry "end_time" serialize_as_timestamp o.end_time

/-- Source `PlaceTriggerOrder` (`rename_all = "camelCase"`); `trigger_price`
is a required (non-optional) field, the four optionals are skipped
when `None`. -/
structure PlaceTriggerOrder where
  market : String
  side : Side
  size : Decimal
  type : OrderType
  trigger_price : Decimal
  reduce_only : Option Bool
  retry_until_filled : Option Bool
  order_price : Option Decimal
  trail_value : Option Decimal
deriving DecidableEq, Repr

/-- serde `Serialize` for `PlaceTriggerOrder`, fields in declaration
order with camelCase keys. -/
def PlaceTriggerOrder.serialize (o : PlaceTriggerOrder) : Body :=
  [("market", JsonVal.str o.market),
   ("side", JsonVal.side o.side),
   ("size", JsonVal.dec o.size),
   ("type", JsonVal.ordType o.type),
   ("triggerPrice", JsonVal.dec o.trigger_price)]
  ++ optEntry "reduceOnly" JsonVal.bool o.reduce_only
  ++ optEntry "retryUntilFilled" JsonVal.bool o.retry_until_filled
  ++ optEntry "orderPrice" JsonVal.dec o.order_price
  ++ optEntry "trailValue" JsonVal.dec o.trail_value

/-- Source `ModifyOrderByClientId` (`rename_all = "camelCase"`); `client_id`
carries `skip_serializing`, the optionals are skipped when `None`. -/
structure ModifyOrderByClientId where
  client_id : String
  price : Option Decimal
  size : Option Decimal
deriving DecidableEq, Repr

/-- serde `Serialize` for `ModifyOrderByClientId`: `client_id` never
emitted. -/
def ModifyOrderByClientId.serialize (o : ModifyOrderByClientId) : Body :=
  optEntry "price" JsonVal.dec o.price
  ++ optEntry "size" JsonVal.dec o.size

/-- Source `ModifyOrderByClientId::path`:
`format!("/orders/by_client_id/{}/modify", self.client_id)`. -/
def ModifyOrderByClientId.path (o : ModifyOrderByClientId) : String :=
  "/orders/by_client_id/" ++ o.client_id ++ "/modify"

/-- Source `impl Request for GetOpenOrders`: method, default path, auth,
response type. -/
def GetOpenOrders.METHOD : Method := Method.GET

/-- Source `const PATH` of `GetOpenOrders`. -/
def GetOpenOrders.PATH : String := "/orders"

/-- Source `const AUTH` of `GetOpenOrders`. -/
def GetOpenOrders.AUTH : Bool := true

/-- Source `type Response = Vec<OrderInfo>` of `GetOpenOrders`. -/
def GetOpenOrders.responseType : ResponseType := ResponseType.orderInfoList

/-- Source `const METHOD` of `PlaceOrder`. -/
def PlaceOrder.METHOD : Method := Method.POST

/-- Source `const PATH` of `PlaceOrder`. -/
def PlaceOrder.PATH : String := "/orders"

/-- Source `const AUTH` of `PlaceOrder`. -/
def PlaceOrder.AUTH : Bool := true

/-- Source `type Response = OrderInfo` of `PlaceOrder`. -/
def PlaceOrder.responseType : ResponseType := ResponseType.orderInfo

/-- Source `const METHOD` of `ModifyOrder`. -/
def ModifyOrder.METHOD : Method := Method.POST

/-- Source `const AUTH` of `ModifyOrder`. -/
def ModifyOrder.AUTH : Bool := true

/-- Source `type Response = OrderInfo` of `ModifyOrder`. -/
def ModifyOrder.responseType : ResponseType := ResponseType.orderInfo

/-- Source `const METHOD` of `GetOrder`. -/
def GetOrder.METHOD : Method := Method.GET

/-- Source `const AUTH` of `GetOrder`. -/
def GetOrder.AUTH : Bool := true

/-- Source `type Response = OrderInfo` of `GetOrder`. -/
def GetOrder.responseType : ResponseType := ResponseType.orderInfo

/-- Source `const METHOD` of `CancelOrder`. -/
def CancelOrder.METHOD : Method := Method.DELETE

/-- Source `const AUTH` of `CancelOrder`. -/
def CancelOrder.AUTH : Bool := true

/-- Source `type Response = String` of `CancelOrder`. -/
def CancelOrder.responseType : ResponseType := ResponseType.confirmationString

/-- Source `const METHOD` of `CancelTriggerOrder`. -/
def CancelTriggerOrder.METHOD : Method := Method.DELETE

/-- Source `const AUTH` of `CancelTriggerOrder`. -/
def CancelTriggerOrder.AUTH : Bool := true

/-- Source `type Response = String` of `CancelTriggerOrder`. -/
def CancelTriggerOrder.responseType : ResponseType :=
  ResponseType.confirmationString

/-- Source `const METHOD` of `CancelAllOrder`. -/
def CancelAllOrder.METHOD : Method := Method.DELETE

/-- Source `const PATH` of `CancelAllOrder`. -/
def CancelAllOrder.PATH : String := "/orders"

/-- Source `const AUTH` of `CancelAllOrder`. -/
def CancelAllOrder.AUTH : Bool := true

/-- Source `type Response = String` of `CancelAllOrder`. -/
def CancelAllOrder.responseType : ResponseType :=
  ResponseType.confirmationString

/-- Source `const METHOD` of `CancelOrderByClientId`. -/
def CancelOrderByClientId.METHOD : Method := Method.DELETE

/-- Source `const AUTH` of `CancelOrderByClientId`. -/
def CancelOrderByClientId.AUTH : Bool := true

/-- Source `type Response = String` of `CancelOrderByClientId`. -/
def CancelOrderByClientId.responseType : ResponseType :=
  ResponseType.confirmationString

/-- Source `const METHOD` of `GetOrderByClientId`. -/
def GetOrderByClientId.METHOD : Method := Method.GET

/-- Source `const AUTH` of `GetOrderByClientId`. -/
def GetOrderByClientId.AUTH : Bool := true

/-- Source `type Response = OrderInfo` of `GetOrderByClientId`. -/
def GetOrderByClientId.responseType : ResponseType := ResponseType.orderInfo

/-- Source `const METHOD` of `GetOrderHistory`. -/
def GetOrderHistory.METHOD : Method := Method.GET

/-- Source `const PATH` of `GetOrderHistory`. -/
def GetOrderHistory.PATH : String := "/orders/history"

/-- Source `const AUTH` of `GetOrderHistory`. -/
def GetOrderHistory.AUTH : Bool := true

/-- Source `type Response = Vec<OrderInfo>` of `GetOrderHistory`. -/
def GetOrderHistory.responseType : ResponseType := ResponseType.orderInfoList

/-- Source `const METHOD` of `PlaceTriggerOrder`. -/
def PlaceTriggerOrder.METHOD : Method := Method.POST

/-- Source `const PATH` of `PlaceTriggerOrder`. -/
def PlaceTriggerOrder.PATH : String := "/conditional_orders"

/-- Source `const AUTH` of `PlaceTriggerOrder`. -/
def PlaceTriggerOrder.AUTH : Bool := true

/-- Source `type Response = OrderInfo` of `PlaceTriggerOrder`. -/
def PlaceTriggerOrder.responseType : ResponseType := ResponseType.orderInfo

/-- Source `const METHOD` of `ModifyOrderByClientId`. -/
def ModifyOrderByClientId.METHOD : Method := Method.POST

/-- Source `const AUTH` of `ModifyOrderByClientId`. -/
def ModifyOrderByClientId.AUTH : Bool := true

/-- Source `type Response = OrderInfo` of `ModifyOrderByClientId`. -/
def ModifyOrderByClientId.responseType : ResponseType :=
  ResponseType.orderInfo

/-- Source `OrderInfo` (`rename_all = "camelCase"`, `Deserialize`): the
canonical server-side order record. -/
structure OrderInfo where
  id : Id
  market : String
  future : Option String
  type : OrderType
  side : Side
  price : Option Decimal
  size : Decimal
  reduce_only : Option Bool
  ioc : Option Bool
  post_only : Option Bool
  status : OrderStatus
  filled_size : Option Decimal
  remaining_size : Option Decimal
  avg_fill_price : Option Decimal
  liquidation : Option Bool
  created_at : DateTime
  client_id : Option String
  retry_until_filled : Option Bool
  trigger_price : Option Decimal
  order_price : Option Decimal
  triggered_at : Option String
  error : Option String
deriving DecidableEq, Repr

/-- JSON decoder for an `Id` (serde: a nonnegative JSON integer). -/
def JsonVal.asId : JsonVal → Option Id
  | JsonVal.num n => if 0 ≤ n then some n.toNat else none
  | _ => none

/-- JSON decoder for a string. -/
def JsonVal.asStr : JsonVal → Option String
  | JsonVal.str s => some s
  | _ => none

/-- JSON decoder for a boolean. -/
def JsonVal.asBool : JsonVal → Option Bool
  | JsonVal.bool b => some b
  | _ => none

/-- JSON decoder for a `Decimal` (wire rendering opaque, see
`JsonVal`). -/
def JsonVal.asDec : JsonVal → Option Decimal
  | JsonVal.dec d => some d
  | _ => none

/-- JSON decoder for a `Side`. -/
def JsonVal.asSide : JsonVal → Option Side
  | JsonVal.side s => some s
  | _ => none

/-- JSON decoder for an `OrderType`. -/
def JsonVal.asOrdType : JsonVal → Option OrderType
  | JsonVal.ordType t => some t
  | _ => none

/-- JSON decoder for an `OrderStatus`. -/
def JsonVal.asStatus : JsonVal → Option OrderStatus
  | JsonVal.status st => some st
  | _ => none

/-- JSON decoder for a `chrono::DateTime<Utc>`. -/
def JsonVal.asDatetime : JsonVal → Option DateTime
  | JsonVal.datetime d => some d
  | _ => none

/-- serde semantics of a required struct field: the key must be
present and its value must decode. -/
def decReq (f : JsonVal → Option α) (p : Body) (k : String) : Option α :=
  (List.lookup k p).bind f

/-- serde semantics of an `Option` struct field: a missing key or an
explicit null yields `none`; a present value must decode. -/
def decOpt (f : JsonVal → Option α) (p : Body) (k : String) : Option (Option α) :=
  match List.lookup k p with
  | none => some none
  | some JsonVal.null => some none
  | some v => (f v).map some

/-- The camelCase keys the derived `Deserialize` for `OrderInfo`
recognises; any other key in a payload is ignored (serde default: no
`deny_unknown_fields`). -/
def orderInfoKnownKeys : List String :=
  ["id", "market", "future", "type", "side", "price", "size",
   "reduceOnly", "ioc", "postOnly", "status", "filledSize",
   "remainingSize", "avgFillPrice", "liquidation", "createdAt",
   "clientId", "retryUntilFilled", "triggerPrice", "orderPrice",
   "triggeredAt", "error"]

/-- First third of the derived `Deserialize` for `OrderInfo`
(fields `id` through `reduce_only`, in declaration order). -/
def decodeOrderInfoPart1 (p : Body) :
    Option (Id × String × Option String × OrderType × Side ×
      Option Decimal × Decimal × Option Bool) :=
  (decReq JsonVal.asId p "id").bind fun id =>
  (decReq JsonVal.asStr p "market").bind fun market =>
  (decOpt JsonVal.asStr p "future").bind fun future =>
  (decReq JsonVal.asOrdType p "type").bind fun type =>
  (decReq JsonVal.asSide p "side").bind fun side =>
  (decOpt JsonVal.asDec p "price").bind fun price =>
  (decReq JsonVal.asDec p "size").bind fun size =>
  (decOpt JsonVal.asBool p "reduceOnly").bind fun reduce_only =>
  some (id, market, future, type, side, price, size, reduce_only)

/-- Second third of the derived `Deserialize` for `OrderInfo`
(fields `ioc` through `created_at`, in declaration order). -/
def decodeOrderInfoPart2 (p : Body) :
    Option (Option Bool × Option Bool × OrderStatus × Option Decimal ×
      Option Decimal × Option Decimal × Option Bool × DateTime) :=
  (decOpt JsonVal.asBool p "ioc").bind fun ioc =>
  (decOpt JsonVal.asBool p "postOnly").bind fun post_only =>
  (decReq JsonVal.asStatus p "status").bind fun status =>
  (decOpt JsonVal.asDec p "filledSize").bind fun filled_size =>
  (decOpt JsonVal.asDec p "remainingSize").bind fun remaining_size =>
  (decOpt JsonVal.asDec p "avgFillPrice").bind fun avg_fill_price =>
  (decOpt JsonVal.asBool p "liquidation").bind fun liquidation =>
  (decReq JsonVal.asDatetime p "createdAt").bind fun created_at =>
  some (ioc, post_only, status, filled_size, remaining_size,
    avg_fill_price, liquidation, created_at)

/-- Last third of the derived `Deserialize` for `OrderInfo`
(fields `client_id` through `error`, in declaration order). -/
def decodeOrderInfoPart3 (p : Body) :
    Option (Option String × Option Bool × Option Decimal ×
      Option Decimal × Option String × Option String) :=
  (decOpt JsonVal.asStr p "clientId").bind fun client_id =>
  (decOpt JsonVal.asBool p "retryUntilFilled").bind fun retry_until_filled =>
  (decOpt JsonVal.asDec p "triggerPrice").bind fun trigger_price =>
  (decOpt JsonVal.asDec p "orderPrice").bind fun order_price =>
  (decOpt JsonVal.asStr p "triggeredAt").bind fun triggered_at =>
  (decOpt JsonVal.asStr p "error").bind fun error =>
  some (client_id, retry_until_filled, trigger_price, order_price,
    triggered_at, error)

/-- Derived `Deserialize` for `OrderInfo`: required fields fail when
missing, `Option` fields default to `none`, unknown keys are never
consulted.  (Split into thirds purely to keep compiled terms small;
the field order and per-field semantics match the derive.) -/
def deserializeOrderInfo (p : Body) : Option OrderInfo :=
  match decodeOrderInfoPart1 p, decodeOrderInfoPart2 p,
      decodeOrderInfoPart3 p with
  | some (id, market, future, type, side, price, size, reduce_only),
    some (ioc, post_only, status, filled_size, remaining_size,
      avg_fill_price, liquidation, created_at),
    some (client_id, retry_until_filled, trigger_price, order_price,
      triggered_at, error) =>
    some { id, market, future, type, side, price, size, reduce_only,
           ioc, post_only, status, filled_size, remaining_size,
           avg_fill_price, liquidation, created_at, client_id,
           retry_until_filled, trigger_price, order_price,
           triggered_at, error }
  | _, _, _ => none

/-- A payload carrying exactly the required `OrderInfo` fields and
none of the optional ones. -/
def minOrderInfoPayload : Body :=
  [("id", JsonVal.num 42),
   ("market", JsonVal.str "BTC-PERP"),
   ("type", JsonVal.ordType OrderType.market),
   ("side", JsonVal.side Side.buy),
   ("size", JsonVal.dec { mantissa := 15, scale := 1 }),
   ("status", JsonVal.status OrderStatus.new),
   ("createdAt", JsonVal.datetime { timestamp := 1600000000 })]
/-- Rust `#[derive(Default)]` semantics for `Side`.  Modelled from the
spec where `super::common` is concerned (not in src/): the claims under
study depend only on the `bool` field defaults of the deriving structs,
never on which variant this returns. -/
def Side.default : Side := Side.buy

/-- Rust `#[derive(Default)]` semantics for `OrderType`; same
modelling note as `Side.default`. -/
def OrderType.default : OrderType := OrderType.market

/-- Source `rust_decimal::Decimal::default()`: zero. -/
def Decimal.default : Decimal := { mantissa := 0, scale := 0 }

/-- Source `#[derive(Default)]` for `PlaceOrder`: every field takes its
type's default (`bool` → `false`, `Option` → `None`, `&str` → `""`). -/
def PlaceOrder.default : PlaceOrder :=
  { market := ""
    side := Side.default
    price := none
    type := OrderType.default
    size := Decimal.default
    reduce_only := false
    ioc := false
    post_only := false
    client_id := none
    reject_on_price_band := false }

/-- The spec's lower-camel-case naming convention, stated from the
spec's words so that it can be compared with the keys the code emits:
nonempty, begins with a lowercase letter, and contains no underscore
separator. -/
def isLowerCamelCase (s : String) : Bool :=
  match s.data with
  | [] => false
  | c :: _ => c.isLower && s.data.all (fun d => d != '_')

theorem lookup_append_of_ne {a k : String} (v : JsonVal) (p : Body)
    (h : a ≠ k) : List.lookup a (p ++ [(k, v)]) = List.lookup a p := by
  induction p with
  | nil => simp [List.lookup, beq_eq_false_iff_ne.mpr h]
  | cons hd tl ih =>
    obtain ⟨b, w⟩ := hd
    cases hab : (a == b) <;> simp [List.lookup, hab, ih]

/-- C1: every serialized `PlaceOrder` body binds the key `price`: to
JSON null when the field is `None` (the key is never omitted), and to
the price value when it is `Some p`. -/
theorem placeOrder_price_always_serialized (o : PlaceOrder) :
    Body.lookup (PlaceOrder.serialize o) "price"
      = some (nullable JsonVal.dec o.price)
    ∧ ("price", nullable JsonVal.dec o.price) ∈ PlaceOrder.serialize o := by
  obtain ⟨m, sd, pr, t, sz, ro, io, po, ci, rj⟩ := o
  cases pr <;> cases ci <;>
    simp [PlaceOrder.serialize, Body.lookup, List.lookup, optEntry, nullable]

/-- C3: the overridden `path()` implementations render exactly
`/orders/{id}`, `/orders/{id}/modify`, `/conditional_orders/{id}`,
`/orders/by_client_id/{clientId}` and
`/orders/by_client_id/{clientId}/modify`, with the id in decimal and
the client id verbatim; byte-exact at the spec's sample inputs. -/
theorem path_rendering :
    (∀ o : ModifyOrder, ModifyOrder.path o
        = "/orders/" ++ Nat.repr o.id ++ "/modify")
    ∧ (∀ n : Id, GetOrder.path (GetOrder.new n) = "/orders/" ++ Nat.repr n)
    ∧ (∀ n : Id, CancelOrder.path (CancelOrder.new n)
        = "/orders/" ++ Nat.repr n)
    ∧ (∀ n : Id, CancelTriggerOrder.path (CancelTriggerOrder.new n)
        = "/conditional_orders/" ++ Nat.repr n)
    ∧ (∀ s : String, CancelOrderByClientId.path (CancelOrderByClientId.new s)
        = "/orders/by_client_id/" ++ s)
    ∧ (∀ s : String, GetOrderByClientId.path (GetOrderByClientId.new s)
        = "/orders/by_client_id/" ++ s)
    ∧ (∀ o : ModifyOrderByClientId, ModifyOrderByClientId.path o
        = "/orders/by_client_id/" ++ o.client_id ++ "/modify")
    ∧ GetOrder.path (GetOrder.new 42) = "/orders/42"
    ∧ CancelOrder.path (CancelOrder.new 42) = "/orders/42"
    ∧ ModifyOrder.path
        { id := 42, price := none, size := none, client_id := none }
        = "/orders/42/modify"
    ∧ CancelTriggerOrder.path (CancelTriggerOrder.new 42)
        = "/conditional_orders/42"
    ∧ CancelOrderByClientId.path (CancelOrderByClientId.new "abc-1")
        = "/orders/by_client_id/abc-1"
    ∧ GetOrderByClientId.path (GetOrderByClientId.new "abc-1")
        = "/orders/by_client_id/abc-1"
    ∧ ModifyOrderByClientId.path
        { client_id := "abc-1", price := none, size := none }
        = "/orders/by_client_id/abc-1/modify" := by
  refine ⟨fun o => rfl, fun n => rfl, fun n => rfl, fun n => rfl,
    fun s => rfl, fun s => rfl, fun o => rfl, ?_, ?_, ?_, ?_, ?_, ?_, ?_⟩
    <;> decide

/-- C6: every one of the twelve `Request` impls in the module declares
`AUTH = true`; authentication is required without exception. -/
theorem all_descriptors_require_auth :
    GetOpenOrders.AUTH = true ∧ PlaceOrder.AUTH = true
    ∧ ModifyOrder.AUTH = true ∧ GetOrder.AUTH = true
    ∧ CancelOrder.AUTH = true ∧ CancelTriggerOrder.AUTH = true
    ∧ CancelAllOrder.AUTH = true ∧ CancelOrderByClientId.AUTH = true
    ∧ GetOrderByClientId.AUTH = true ∧ GetOrderHistory.AUTH = true
    ∧ PlaceTriggerOrder.AUTH = true ∧ ModifyOrderByClientId.AUTH = true := by
  decide

/-- C7: each descriptor's HTTP method and declared response shape are
fixed constants matching the interface table: the three GETs of single
orders return one `OrderInfo`, the list endpoints return a sequence,
the POSTs return one `OrderInfo`, and every cancel variant is a DELETE
returning a confirmation string. -/
theorem methods_and_response_types :
    GetOpenOrders.METHOD = Method.GET
    ∧ GetOpenOrders.responseType = ResponseType.orderInfoList
    ∧ PlaceOrder.METHOD = Method.POST
    ∧ PlaceOrder.responseType = ResponseType.orderInfo
    ∧ ModifyOrder.METHOD = Method.POST
    ∧ ModifyOrder.responseType = ResponseType.orderInfo
    ∧ PlaceTriggerOrder.METHOD = Method.POST
    ∧ PlaceTriggerOrder.responseType = ResponseType.orderInfo
    ∧ ModifyOrderByClientId.METHOD = Method.POST
    ∧ ModifyOrderByClientId.responseType = ResponseType.orderInfo
    ∧ GetOrder.METHOD = Method.GET
    ∧ GetOrder.responseType = ResponseType.orderInfo
    ∧ GetOrderByClientId.METHOD = Method.GET
    ∧ GetOrderByClientId.responseType = ResponseType.orderInfo
    ∧ GetOrderHistory.METHOD = Method.GET
    ∧ GetOrderHistory.responseType = ResponseType.orderInfoList
    ∧ CancelOrder.METHOD = Method.DELETE
    ∧ CancelOrder.responseType = ResponseType.confirmationString
    ∧ CancelTriggerOrder.METHOD = Method.DELETE
    ∧ CancelTriggerOrder.responseType = ResponseType.confirmationString
    ∧ CancelAllOrder.METHOD = Method.DELETE
    ∧ CancelAllOrder.responseType = ResponseType.confirmationString
    ∧ CancelOrderByClientId.METHOD = Method.DELETE
    ∧ CancelOrderByClientId.responseType = ResponseType.confirmationString := by
  decide

/-- C2: across all descriptors, an optional field that is `None`
produces no key in the body (and certainly no null), while a populated
one maps its key to the wrapped value; the only deliberate exception,
`price` on `PlaceOrder`, is excluded here.  In particular
`CancelAllOrder::with_market("BTC-PERP")` serializes only the `market`
key. -/
theorem optional_fields_omitted_when_none :
    (∀ o : GetOpenOrders,
      Body.lookup (GetOpenOrders.serialize o) "market"
        = Option.map JsonVal.str o.market)
    ∧ (∀ o : PlaceOrder,
      Body.lookup (PlaceOrder.serialize o) "clientId"
        = Option.map JsonVal.str o.client_id)
    ∧ (∀ o : ModifyOrder,
      Body.lookup (ModifyOrder.serialize o) "price"
          = Option.map JsonVal.dec o.price
        ∧ Body.lookup (ModifyOrder.serialize o) "size"
          = Option.map JsonVal.dec o.size
        ∧ Body.lookup (ModifyOrder.serialize o) "clientId"
          = Option.map JsonVal.str o.client_id)
    ∧ (∀ o : CancelAllOrder,
      Body.lookup (CancelAllOrder.serialize o) "market"
          = Option.map JsonVal.str o.market
        ∧ Body.lookup (CancelAllOrder.serialize o) "side"
          = Option.map JsonVal.side o.side
        ∧ Body.lookup (CancelAllOrder.serialize o) "conditionalOrdersOnly"
          = Option.map JsonVal.bool o.conditional_orders_only
        ∧ Body.lookup (CancelAllOrder.serialize o) "limitOrdersOnly"
          = Option.map JsonVal.bool o.limit_orders_only)
    ∧ (∀ o : GetOrderHistory,
      Body.lookup (GetOrderHistory.serialize o) "market"
          = Option.map JsonVal.str o.market
        ∧ Body.lookup (GetOrderHistory.serialize o) "side"
          = Option.map JsonVal.side o.side
        ∧ Body.lookup (GetOrderHistory.serialize o) "limit"
          = Option.map (fun n => JsonVal.num (Int.ofNat n)) o.limit
        ∧ Body.lookup (GetOrderHistory.serialize o) "start_time"
          = Option.map serialize_as_timestamp o.start_time
        ∧ Body.lookup (GetOrderHistory.serialize o) "end_time"
          = Option.map serialize_as_timestamp o.end_time)
    ∧ (∀ o : PlaceTriggerOrder,
      Body.lookup (PlaceTriggerOrder.serialize o) "reduceOnly"
          = Option.map JsonVal.bool o.reduce_only
        ∧ Body.lookup (PlaceTriggerOrder.serialize o) "retryUntilFilled"
          = Option.map JsonVal.bool o.retry_until_filled
        ∧ Body.lookup (PlaceTriggerOrder.serialize o) "orderPrice"
          = Option.map JsonVal.dec o.order_price
        ∧ Body.lookup (PlaceTriggerOrder.serialize o) "trailValue"
          = Option.map JsonVal.dec o.trail_value)
    ∧ (∀ o : ModifyOrderByClientId,
      Body.lookup (ModifyOrderByClientId.serialize o) "price"
          = Option.map JsonVal.dec o.price
        ∧ Body.lookup (ModifyOrderByClientId.serialize o) "size"
          = Option.map JsonVal.dec o.size)
    ∧ CancelAllOrder.serialize (CancelAllOrder.with_market "BTC-PERP")
        = [("market", JsonVal.str "BTC-PERP")] := by
  refine ⟨?_, ?_, ?_, ?_, ?_, ?_, ?_, ?_⟩
  · intro o
    obtain ⟨m⟩ := o
    cases m <;> simp [GetOpenOrders.serialize, Body.lookup, optEntry, List.lookup]
  · intro o
    obtain ⟨m, sd, pr, t, sz, ro, io, po, ci, rj⟩ := o
    cases ci <;>
      simp [PlaceOrder.serialize, Body.lookup, optEntry, List.lookup]
  · intro o
    obtain ⟨i, pr, sz, ci⟩ := o
    cases pr <;> cases sz <;> cases ci <;>
      simp [ModifyOrder.serialize, Body.lookup, optEntry, List.lookup]
  · intro o
    obtain ⟨m, sd, co, lo⟩ := o
    cases m <;> cases sd <;> cases co <;> cases lo <;>
      simp [CancelAllOrder.serialize, Body.lookup, optEntry, List.lookup]
  · intro o
    obtain ⟨m, sd, li, st, et⟩ := o
    cases m <;> cases sd <;> cases li <;> cases st <;> cases et <;>
      simp [GetOrderHistory.serialize, Body.lookup, optEntry, List.lookup]
  · intro o
    obtain ⟨m, sd, sz, t, tp, ro, rf, op, tv⟩ := o
    cases ro <;> cases rf <;> cases op <;> cases tv <;>
      simp [PlaceTriggerOrder.serialize, Body.lookup, optEntry, List.lookup]
  · intro o
    obtain ⟨ci, pr, sz⟩ := o
    cases pr <;> cases sz <;>
      simp [ModifyOrderByClientId.serialize, Body.lookup, optEntry, List.lookup]
  · decide

/-- C4 counterexample: `GetOrderHistory` carries no serde rename
attribute, so a query with only `start_time` set serializes the
snake_case key `start_time` — the camelCase key `startTime` the claim
requires is absent. -/
theorem getOrderHistory_startTime_key_is_snake_case :
    ¬ "startTime" ∈ Body.keys (GetOrderHistory.serialize
      { market := none, side := none, limit := none,
        start_time := some { timestamp := 1600000000 }, end_time := none })
    ∧ GetOrderHistory.serialize
      { market := none, side := none, limit := none,
        start_time := some { timestamp := 1600000000 }, end_time := none }
      = [("start_time", JsonVal.num 1600000000)] := by
  decide

/-- C4 amended: every key of the camelCase-annotated descriptors (and
of `GetOpenOrders`, whose single key needs no renaming) is
lower-camel-case, but `GetOrderHistory` is unannotated: with only
`start_time` set its body is exactly the snake_case key `start_time`
bound to the integer Unix timestamp, omitting `end_time`, `market`,
`side`, `limit`. -/
theorem camelCase_keys_except_getOrderHistory :
    (∀ o : GetOpenOrders,
      (Body.keys (GetOpenOrders.serialize o)).all isLowerCamelCase = true)
    ∧ (∀ o : PlaceOrder,
      (Body.keys (PlaceOrder.serialize o)).all isLowerCamelCase = true)
    ∧ (∀ o : ModifyOrder,
      (Body.keys (ModifyOrder.serialize o)).all isLowerCamelCase = true)
    ∧ (∀ o : CancelAllOrder,
      (Body.keys (CancelAllOrder.serialize o)).all isLowerCamelCase = true)
    ∧ (∀ o : PlaceTriggerOrder,
      (Body.keys (PlaceTriggerOrder.serialize o)).all isLowerCamelCase = true)
    ∧ (∀ o : ModifyOrderByClientId,
      (Body.keys (ModifyOrderByClientId.serialize o)).all isLowerCamelCase
        = true)
    ∧ (∀ t : Int, GetOrderHistory.serialize
        { market := none, side := none, limit := none,
          start_time := some { timestamp := t }, end_time := none }
        = [("start_time", JsonVal.num t)]) := by
  refine ⟨?_, ?_, ?_, ?_, ?_, ?_, ?_⟩
  · intro o
    obtain ⟨m⟩ := o
    cases m <;> simp [GetOpenOrders.serialize, Body.keys, optEntry]
    all_goals decide
  · intro o
    obtain ⟨m, sd, pr, t, sz, ro, io, po, ci, rj⟩ := o
    cases ci <;> simp [PlaceOrder.serialize, Body.keys, optEntry] <;> decide
  · intro o
    obtain ⟨i, pr, sz, ci⟩ := o
    cases pr <;> cases sz <;> cases ci <;>
      simp [ModifyOrder.serialize, Body.keys, optEntry] <;> decide
  · intro o
    obtain ⟨m, sd, co, lo⟩ := o
    cases m <;> cases sd <;> cases co <;> cases lo <;>
      simp [CancelAllOrder.serialize, Body.keys, optEntry] <;> decide
  · intro o
    obtain ⟨m, sd, sz, t, tp, ro, rf, op, tv⟩ := o
    cases ro <;> cases rf <;> cases op <;> cases tv <;>
      simp [PlaceTriggerOrder.serialize, Body.keys, optEntry] <;> decide
  · intro o
    obtain ⟨ci, pr, sz⟩ := o
    cases pr <;> cases sz <;>
      simp [ModifyOrderByClientId.serialize, Body.keys, optEntry] <;> decide
  · intro t
    simp [GetOrderHistory.serialize, optEntry, serialize_as_timestamp]

/-- C5 counterexample: `ModifyOrder` also carries an optional payload
field `client_id` (the new client id to assign), and when it is set
the serialized body does contain a `clientId` key — so "no key
corresponding to `id` or `clientId` ever appears in any serialized
body" fails as stated. -/
theorem modifyOrder_body_can_contain_clientId :
    "clientId" ∈ Body.keys (ModifyOrder.serialize
      { id := 1, price := none, size := none, client_id := some "abc-1" }) := by
  decide

/-- C5 amended: the path-identifier field never reaches the body: two
instances differing only in it serialize identically, no `id` key ever
appears, and no `clientId` key appears for the client-id-addressed
descriptors; `ModifyOrder`'s separate optional `client_id` payload
field is the sole source of a `clientId` key among these types. -/
theorem path_identifiers_never_serialized :
    (∀ (o : ModifyOrder) (n : Id),
      ModifyOrder.serialize { o with id := n } = ModifyOrder.serialize o)
    ∧ (∀ o : ModifyOrder, ¬ "id" ∈ Body.keys (ModifyOrder.serialize o))
    ∧ (∀ o : GetOrder, GetOrder.serialize o = [])
    ∧ (∀ o : CancelOrder, CancelOrder.serialize o = [])
    ∧ (∀ o : CancelTriggerOrder, CancelTriggerOrder.serialize o = [])
    ∧ (∀ o : CancelOrderByClientId, CancelOrderByClientId.serialize o = [])
    ∧ (∀ o : GetOrderByClientId, GetOrderByClientId.serialize o = [])
    ∧ (∀ (o : ModifyOrderByClientId) (s : String),
      ModifyOrderByClientId.serialize { o with client_id := s }
        = ModifyOrderByClientId.serialize o)
    ∧ (∀ o : ModifyOrderByClientId,
      ¬ "clientId" ∈ Body.keys (ModifyOrderByClientId.serialize o)) := by
  refine ⟨fun o n => rfl, ?_, fun o => rfl, fun o => rfl, fun o => rfl,
    fun o => rfl, fun o => rfl, fun o s => rfl, ?_⟩
  · intro o
    obtain ⟨i, pr, sz, ci⟩ := o
    cases pr <;> cases sz <;> cases ci <;>
      simp [ModifyOrder.serialize, Body.keys, optEntry]
  · intro o
    obtain ⟨ci, pr, sz⟩ := o
    cases pr <;> cases sz <;>
      simp [ModifyOrderByClientId.serialize, Body.keys, optEntry]

/-- C9: the four booleans of `PlaceOrder` are plain (non-optional)
fields defaulting to `false` and every serialized `PlaceOrder` body
binds them, while the booleans of the trigger-order and cancel-all
variants are optional and their keys appear exactly when the fields
are set. -/
theorem placeOrder_flags_always_sent_trigger_flags_optional :
    PlaceOrder.default.reduce_only = false
    ∧ PlaceOrder.default.ioc = false
    ∧ PlaceOrder.default.post_only = false
    ∧ PlaceOrder.default.reject_on_price_band = false
    ∧ (∀ o : PlaceOrder,
      Body.lookup (PlaceOrder.serialize o) "reduceOnly"
          = some (JsonVal.bool o.reduce_only)
        ∧ Body.lookup (PlaceOrder.serialize o) "ioc"
          = some (JsonVal.bool o.ioc)
        ∧ Body.lookup (PlaceOrder.serialize o) "postOnly"
          = some (JsonVal.bool o.post_only)
        ∧ Body.lookup (PlaceOrder.serialize o) "rejectOnPriceBand"
          = some (JsonVal.bool o.reject_on_price_band))
    ∧ (∀ t : PlaceTriggerOrder,
      Body.lookup (PlaceTriggerOrder.serialize t) "reduceOnly"
          = Option.map JsonVal.bool t.reduce_only
        ∧ Body.lookup (PlaceTriggerOrder.serialize t) "retryUntilFilled"
          = Option.map JsonVal.bool t.retry_until_filled)
    ∧ (∀ c : CancelAllOrder,
      Body.lookup (CancelAllOrder.serialize c) "conditionalOrdersOnly"
          = Option.map JsonVal.bool c.conditional_orders_only
        ∧ Body.lookup (CancelAllOrder.serialize c) "limitOrdersOnly"
          = Option.map JsonVal.bool c.limit_orders_only) := by
  refine ⟨rfl, rfl, rfl, rfl, ?_, ?_, ?_⟩
  · intro o
    obtain ⟨m, sd, pr, t, sz, ro, io, po, ci, rj⟩ := o
    cases ci <;>
      simp [PlaceOrder.serialize, Body.lookup, optEntry, List.lookup]
  · intro t
    obtain ⟨m, sd, sz, ty, tp, ro, rf, op, tv⟩ := t
    cases ro <;> cases rf <;> cases op <;> cases tv <;>
      simp [PlaceTriggerOrder.serialize, Body.lookup, optEntry, List.lookup]
  · intro c
    obtain ⟨m, sd, co, lo⟩ := c
    cases m <;> cases sd <;> cases co <;> cases lo <;>
      simp [CancelAllOrder.serialize, Body.lookup, optEntry, List.lookup]

/-- C10: every serialized `PlaceTriggerOrder` body binds `market`,
`side`, `size`, `type` and `triggerPrice` (the trigger price is a
required field of the struct, so no instance lacks it), while
`orderPrice`, `trailValue`, `reduceOnly` and `retryUntilFilled` are
bound exactly when the corresponding optional field is set. -/
theorem placeTriggerOrder_body_keys (t : PlaceTriggerOrder) :
    Body.lookup (PlaceTriggerOrder.serialize t) "market"
      = some (JsonVal.str t.market)
    ∧ Body.lookup (PlaceTriggerOrder.serialize t) "side"
      = some (JsonVal.side t.side)
    ∧ Body.lookup (PlaceTriggerOrder.serialize t) "size"
      = some (JsonVal.dec t.size)
    ∧ Body.lookup (PlaceTriggerOrder.serialize t) "type"
      = some (JsonVal.ordType t.type)
    ∧ Body.lookup (PlaceTriggerOrder.serialize t) "triggerPrice"
      = some (JsonVal.dec t.trigger_price)
    ∧ Body.lookup (PlaceTriggerOrder.serialize t) "orderPrice"
      = Option.map JsonVal.dec t.order_price
    ∧ Body.lookup (PlaceTriggerOrder.serialize t) "trailValue"
      = Option.map JsonVal.dec t.trail_value
    ∧ Body.lookup (PlaceTriggerOrder.serialize t) "reduceOnly"
      = Option.map JsonVal.bool t.reduce_only
    ∧ Body.lookup (PlaceTriggerOrder.serialize t) "retryUntilFilled"
      = Option.map JsonVal.bool t.retry_until_filled := by
  obtain ⟨m, sd, sz, ty, tp, ro, rf, op, tv⟩ := t
  cases ro <;> cases rf <;> cases op <;> cases tv <;>
    simp [PlaceTriggerOrder.serialize, Body.lookup, optEntry, List.lookup]

/-- C8: decoding an `OrderInfo` payload that carries only the required
fields succeeds, yielding `none` for every optional field
(`filledSize`, `avgFillPrice`, `clientId` included); and appending a
key the derive does not recognise never changes the result of
decoding any payload. -/
theorem orderInfo_decode_missing_and_unknown_fields :
    deserializeOrderInfo minOrderInfoPayload
      = some { id := 42, market := "BTC-PERP", future := none,
               type := OrderType.market, side := Side.buy, price := none,
               size := { mantissa := 15, scale := 1 }, reduce_only := none,
               ioc := none, post_only := none, status := OrderStatus.new,
               filled_size := none, remaining_size := none,
               avg_fill_price := none, liquidation := none,
               created_at := { timestamp := 1600000000 }, client_id := none,
               retry_until_filled := none, trigger_price := none,
               order_price := none, triggered_at := none, error := none }
    ∧ ∀ (p : Body) (k : String) (v : JsonVal), ¬ k ∈ orderInfoKnownKeys →
        deserializeOrderInfo (p ++ [(k, v)]) = deserializeOrderInfo p := by
  refine ⟨by decide, ?_⟩
  intro p k v h
  have hl : ∀ a ∈ orderInfoKnownKeys,
      List.lookup a (p ++ [(k, v)]) = List.lookup a p :=
    fun a ha => lookup_append_of_ne v p (fun e => h (e ▸ ha))
  have h1 : decodeOrderInfoPart1 (p ++ [(k, v)]) = decodeOrderInfoPart1 p := by
    simp only [decodeOrderInfoPart1, decReq, decOpt,
      hl "id" (by decide), hl "market" (by decide), hl "future" (by decide),
      hl "type" (by decide), hl "side" (by decide), hl "price" (by decide),
      hl "size" (by decide), hl "reduceOnly" (by decide)]
  have h2 : decodeOrderInfoPart2 (p ++ [(k, v)]) = decodeOrderInfoPart2 p := by
    simp only [decodeOrderInfoPart2, decReq, decOpt,
      hl "ioc" (by decide), hl "postOnly" (by decide),
      hl "status" (by decide), hl "filledSize" (by decide),
      hl "remainingSize" (by decide), hl "avgFillPrice" (by decide),
      hl "liquidation" (by decide), hl "createdAt" (by decide)]
  have h3 : decodeOrderInfoPart3 (p ++ [(k, v)]) = decodeOrderInfoPart3 p := by
    simp only [decodeOrderInfoPart3, decReq, decOpt,
      hl "clientId" (by decide), hl "retryUntilFilled" (by decide),
      hl "triggerPrice" (by decide), hl "orderPrice" (by decide),
      hl "triggeredAt" (by decide), hl "error" (by decide)]
  simp only [deserializeOrderInfo, h1, h2, h3]

/-- Witness for C8: the minimal payload extended with the unknown key
`bogusField` decodes exactly as the minimal payload itself. -/
theorem orderInfo_decode_unknown_field_witness :
    deserializeOrderInfo (minOrderInfoPayload ++ [("bogusField", JsonVal.str "x")])
      = deserializeOrderInfo minOrderInfoPayload :=
  orderInfo_decode_missing_and_unknown_fields.2 minOrderInfoPayload
    "bogusField" (JsonVal.str "x") (by decide)

end Ftx
